import Mathlib

/-!
Verification of the vibration-analysis evaluator of `src/ex1.py`
(`analyse_vibrations`) and of the axis configuration of `create_plot`.

The Python function evaluates four closed-form damped-oscillator
solutions on the grid `np.linspace(0, t_max, 2000)` and returns the
time grid, the four displacement sequences, the two envelope sequences
of the underdamped case and the scalar peak amplitude.  We embed it
shallowly over `ℝ`: each NumPy vectorised expression becomes a real
function of the sample time, and each array becomes the list of its
2000 samples.
-/

set_option maxRecDepth 8000

namespace Vibrations

noncomputable section

/-- The hard-coded sample count of `np.linspace(0, t_max, 2000)` (line 10). -/
def numSamples : ℕ := 2000

/-- The i-th sample of `np.linspace(0, t_max, 2000)`: linspace with
endpoint included places sample i at `t_max * i / (2000 - 1)`. -/
def tsample (t_max : ℝ) (i : ℕ) : ℝ := t_max * i / ((numSamples : ℝ) - 1)

/-- An array produced by a vectorised NumPy expression over the grid:
the list of values of `f` at the sample indices `0, …, 1999`. -/
def sampleList (f : ℕ → ℝ) : List ℝ := (List.range numSamples).map f

/-- Line 14: `omega_sans = omega_0 * np.sqrt(1 - xi_sans**2)` with `xi_sans = 0.0`. -/
def omega_sans (omega_0 : ℝ) : ℝ := omega_0 * Real.sqrt (1 - (0 : ℝ) ^ 2)

/-- Line 15: undamped displacement
`x0*np.cos(omega_sans*t) + (v0/omega_sans)*np.sin(omega_sans*t)`. -/
def x_sans_at (omega_0 x0 v0 t : ℝ) : ℝ :=
  x0 * Real.cos (omega_sans omega_0 * t) + v0 / omega_sans omega_0 * Real.sin (omega_sans omega_0 * t)

/-- Line 18: `omega_d_sous = omega_0 * np.sqrt(1 - xi_sous**2)`. -/
def omega_d_sous (omega_0 xi_sous : ℝ) : ℝ := omega_0 * Real.sqrt (1 - xi_sous ^ 2)

/-- Lines 19–22: underdamped displacement
`np.exp(-xi_sous*omega_0*t) * (x0*np.cos(omega_d_sous*t)
 + (v0 + x0*xi_sous*omega_0)/omega_d_sous * np.sin(omega_d_sous*t))`. -/
def x_sous_at (omega_0 x0 v0 xi_sous t : ℝ) : ℝ :=
  Real.exp (-(xi_sous * omega_0 * t)) *
    (x0 * Real.cos (omega_d_sous omega_0 xi_sous * t) +
      (v0 + x0 * xi_sous * omega_0) / omega_d_sous omega_0 xi_sous *
        Real.sin (omega_d_sous omega_0 xi_sous * t))

/-- Line 23: `enveloppe_sous_pos = np.exp(-xi_sous*omega_0*t)
 * np.sqrt(x0**2 + ((v0 + x0*xi_sous*omega_0)/omega_d_sous)**2)`. -/
def enveloppe_sous_pos_at (omega_0 x0 v0 xi_sous t : ℝ) : ℝ :=
  Real.exp (-(xi_sous * omega_0 * t)) *
    Real.sqrt (x0 ^ 2 + ((v0 + x0 * xi_sous * omega_0) / omega_d_sous omega_0 xi_sous) ^ 2)

/-- Line 24: `enveloppe_sous_neg = -enveloppe_sous_pos`. -/
def enveloppe_sous_neg_at (omega_0 x0 v0 xi_sous t : ℝ) : ℝ :=
  -enveloppe_sous_pos_at omega_0 x0 v0 xi_sous t

/-- Line 28: critically damped displacement
`np.exp(-omega_0*t) * (x0*(1 + omega_0*t) + v0*t)`. -/
def x_critique_at (omega_0 x0 v0 t : ℝ) : ℝ :=
  Real.exp (-(omega_0 * t)) * (x0 * (1 + omega_0 * t) + v0 * t)

/-- Line 31: `omega_d_sur = omega_0 * np.sqrt(xi_suramorti**2 - 1)`. -/
def omega_d_sur (omega_0 xi_suramorti : ℝ) : ℝ := omega_0 * Real.sqrt (xi_suramorti ^ 2 - 1)

/-- Lines 32–35: overdamped displacement
`np.exp(-xi_suramorti*omega_0*t) * (x0*np.cosh(omega_d_sur*t)
 + (v0 + x0*xi_suramorti*omega_0)/omega_d_sur * np.sinh(omega_d_sur*t))`. -/
def x_suramorti_at (omega_0 x0 v0 xi_suramorti t : ℝ) : ℝ :=
  Real.exp (-(xi_suramorti * omega_0 * t)) *
    (x0 * Real.cosh (omega_d_sur omega_0 xi_suramorti * t) +
      (v0 + x0 * xi_suramorti * omega_0) / omega_d_sur omega_0 xi_suramorti *
        Real.sinh (omega_d_sur omega_0 xi_suramorti * t))

/-- `np.max(np.abs(l))` for the (nonempty) arrays of the evaluator:
fold of `max` over the absolute values.  The base value 0 never
distorts the result because every `|a|` is nonnegative and the arrays
are nonempty (see `absMax_attained`). -/
def absMax (l : List ℝ) : ℝ := l.foldr (fun a m => max |a| m) 0

/-- The tuple returned on line 45 of `src/ex1.py`. -/
structure Trajectory where
  t : List ℝ
  x_sans : List ℝ
  x_sous : List ℝ
  x_critique : List ℝ
  x_suramorti : List ℝ
  enveloppe_sous_pos : List ℝ
  enveloppe_sous_neg : List ℝ
  amplitude_max : ℝ

/-- Shallow embedding of `analyse_vibrations` (lines 5–45 of `src/ex1.py`).
The function performs no parameter validation: it unconditionally
evaluates the four formulas on the 2000-point grid and returns the
tuple.  `amplitude_max` mirrors line 38's
`max(np.max(np.abs(x_sans)), …)` (Python's 4-ary `max` associates to
the left). -/
def analyse_vibrations (omega_0 x0 v0 xi_sous xi_suramorti t_max : ℝ) : Trajectory where
  t := sampleList (fun i => tsample t_max i)
  x_sans := sampleList (fun i => x_sans_at omega_0 x0 v0 (tsample t_max i))
  x_sous := sampleList (fun i => x_sous_at omega_0 x0 v0 xi_sous (tsample t_max i))
  x_critique := sampleList (fun i => x_critique_at omega_0 x0 v0 (tsample t_max i))
  x_suramorti := sampleList (fun i => x_suramorti_at omega_0 x0 v0 xi_suramorti (tsample t_max i))
  enveloppe_sous_pos :=
    sampleList (fun i => enveloppe_sous_pos_at omega_0 x0 v0 xi_sous (tsample t_max i))
  enveloppe_sous_neg :=
    sampleList (fun i => enveloppe_sous_neg_at omega_0 x0 v0 xi_sous (tsample t_max i))
  amplitude_max :=
    max (max (max
      (absMax (sampleList (fun i => x_sans_at omega_0 x0 v0 (tsample t_max i))))
      (absMax (sampleList (fun i => x_sous_at omega_0 x0 v0 xi_sous (tsample t_max i)))))
      (absMax (sampleList (fun i => x_critique_at omega_0 x0 v0 (tsample t_max i)))))
      (absMax (sampleList (fun i => x_suramorti_at omega_0 x0 v0 xi_suramorti (tsample t_max i))))

/-- The validity constraints the spec places on the evaluator's input. -/
def ValidParams (omega_0 xi_sous xi_suramorti t_max : ℝ) : Prop :=
  0 < omega_0 ∧ 0 < xi_sous ∧ xi_sous < 1 ∧ 1 < xi_suramorti ∧ 0 < t_max

/-- The axis configuration applied by `create_plot` (lines 50–111 of
`src/ex1.py`): the y-limits of line 106, the zero reference line of
line 65, and the x-limits which are set (line 109) only in the zoomed
variant. -/
structure PlotAxes where
  xlim : Option (ℝ × ℝ)
  ylim : ℝ × ℝ
  zero_line : ℝ

/-- Shallow embedding of the axis-configuration part of `create_plot`:
`y_margin = 0.1 * amplitude_max`,
`ax.set_ylim(-amplitude_max - y_margin, amplitude_max + y_margin)`,
`ax.axhline(y=0, ...)`, and `if zoom: ax.set_xlim(0, min(3, t_max))`. -/
def create_plot (amplitude_max t_max : ℝ) (zoom : Bool) : PlotAxes :=
  { xlim := if zoom then some (0, min 3 t_max) else none
    ylim := (-amplitude_max - 0.1 * amplitude_max, amplitude_max + 0.1 * amplitude_max)
    zero_line := 0 }

/-- The concatenation of the four displacement sequences of a trajectory,
in the order the evaluator scans them on lines 38–43. -/
def allDisplacements (T : Trajectory) : List ℝ :=
  T.x_sans ++ T.x_sous ++ T.x_critique ++ T.x_suramorti

/-! ### Basic lemmas about the embedding -/

lemma sampleList_length (f : ℕ → ℝ) : (sampleList f).length = numSamples := by
  simp [sampleList]

lemma sampleList_length_2000 (f : ℕ → ℝ) : (sampleList f).length = 2000 :=
  sampleList_length f

lemma sampleList_getD (f : ℕ → ℝ) (i : ℕ) (hi : i < numSamples) :
    (sampleList f).getD i 0 = f i := by
  rw [List.getD_eq_getElem]
  · simp [sampleList]
  · simpa [sampleList] using hi

lemma sampleList_ne_nil (f : ℕ → ℝ) : sampleList f ≠ [] := by
  intro h
  have := sampleList_length f
  rw [h] at this
  simp [numSamples] at this

lemma tsample_zero (t_max : ℝ) : tsample t_max 0 = 0 := by
  simp [tsample]

lemma omega_sans_eq (omega_0 : ℝ) : omega_sans omega_0 = omega_0 := by
  simp [omega_sans]

/-- At t = 0 each of the four displacement formulas gives `x0`. -/
lemma x_sans_at_zero (omega_0 x0 v0 : ℝ) : x_sans_at omega_0 x0 v0 0 = x0 := by
  simp [x_sans_at]

lemma x_sous_at_zero (omega_0 x0 v0 xi_sous : ℝ) : x_sous_at omega_0 x0 v0 xi_sous 0 = x0 := by
  simp [x_sous_at]

lemma x_critique_at_zero (omega_0 x0 v0 : ℝ) : x_critique_at omega_0 x0 v0 0 = x0 := by
  simp [x_critique_at]

lemma x_suramorti_at_zero (omega_0 x0 v0 xi_suramorti : ℝ) :
    x_suramorti_at omega_0 x0 v0 xi_suramorti 0 = x0 := by
  simp [x_suramorti_at]

lemma absMax_cons (a : ℝ) (l : List ℝ) : absMax (a :: l) = max |a| (absMax l) := rfl

lemma absMax_nonneg (l : List ℝ) : 0 ≤ absMax l := by
  induction l with
  | nil => simp [absMax]
  | cons a l ih => rw [absMax_cons]; exact le_trans ih (le_max_right _ _)

lemma le_absMax (l : List ℝ) (y : ℝ) (hy : y ∈ l) : |y| ≤ absMax l := by
  induction l with
  | nil => cases hy
  | cons a l ih =>
    rcases List.mem_cons.mp hy with rfl | hmem
    · rw [absMax_cons]; exact le_max_left _ _
    · rw [absMax_cons]; exact le_trans (ih hmem) (le_max_right _ _)

lemma absMax_append (l₁ l₂ : List ℝ) : absMax (l₁ ++ l₂) = max (absMax l₁) (absMax l₂) := by
  induction l₁ with
  | nil => rw [List.nil_append]; exact (max_eq_right (absMax_nonneg l₂)).symm
  | cons a l ih =>
    rw [List.cons_append, absMax_cons, absMax_cons, ih, max_assoc]

lemma absMax_attained (l : List ℝ) (h : l ≠ []) : ∃ y ∈ l, |y| = absMax l := by
  induction l with
  | nil => exact absurd rfl h
  | cons a l ih =>
    by_cases hl : l = []
    · subst hl
      refine ⟨a, List.mem_cons_self a [], ?_⟩
      rw [absMax_cons]
      exact (max_eq_left (by simp [absMax])).symm
    · obtain ⟨y, hy, hey⟩ := ih hl
      rcases le_total (absMax l) |a| with hle | hle
      · exact ⟨a, List.mem_cons_self a l, by rw [absMax_cons]; exact (max_eq_left hle).symm⟩
      · exact ⟨y, List.mem_cons_of_mem a hy, by rw [absMax_cons, max_eq_right hle, hey]⟩

/-- A linear combination of cosine and sine is bounded by the root of
the sum of squares of its coefficients. -/
lemma abs_cos_sin_comb_le (a b θ : ℝ) :
    |a * Real.cos θ + b * Real.sin θ| ≤ Real.sqrt (a ^ 2 + b ^ 2) := by
  rw [← Real.sqrt_sq_eq_abs]
  apply Real.sqrt_le_sqrt
  nlinarith [Real.sin_sq_add_cos_sq θ, sq_nonneg (a * Real.sin θ - b * Real.cos θ)]

/-- The underdamped displacement is bounded in absolute value by the
positive envelope, pointwise in time. -/
lemma abs_x_sous_le_enveloppe (omega_0 x0 v0 xi_sous t : ℝ) :
    |x_sous_at omega_0 x0 v0 xi_sous t| ≤ enveloppe_sous_pos_at omega_0 x0 v0 xi_sous t := by
  unfold x_sous_at enveloppe_sous_pos_at
  rw [abs_mul, abs_of_pos (Real.exp_pos _)]
  exact mul_le_mul_of_nonneg_left
    (abs_cos_sin_comb_le x0 ((v0 + x0 * xi_sous * omega_0) / omega_d_sous omega_0 xi_sous)
      (omega_d_sous omega_0 xi_sous * t)) (Real.exp_pos _).le

lemma enveloppe_sous_pos_at_nonneg (omega_0 x0 v0 xi_sous t : ℝ) :
    0 ≤ enveloppe_sous_pos_at omega_0 x0 v0 xi_sous t :=
  mul_nonneg (Real.exp_pos _).le (Real.sqrt_nonneg _)

/-! ### Projections of `analyse_vibrations` -/

lemma analyse_vibrations_t (omega_0 x0 v0 xi_sous xi_suramorti t_max : ℝ) :
    (analyse_vibrations omega_0 x0 v0 xi_sous xi_suramorti t_max).t =
      sampleList (fun i => tsample t_max i) := rfl

lemma analyse_vibrations_x_sans (omega_0 x0 v0 xi_sous xi_suramorti t_max : ℝ) :
    (analyse_vibrations omega_0 x0 v0 xi_sous xi_suramorti t_max).x_sans =
      sampleList (fun i => x_sans_at omega_0 x0 v0 (tsample t_max i)) := rfl

lemma analyse_vibrations_x_sous (omega_0 x0 v0 xi_sous xi_suramorti t_max : ℝ) :
    (analyse_vibrations omega_0 x0 v0 xi_sous xi_suramorti t_max).x_sous =
      sampleList (fun i => x_sous_at omega_0 x0 v0 xi_sous (tsample t_max i)) := rfl

lemma analyse_vibrations_x_critique (omega_0 x0 v0 xi_sous xi_suramorti t_max : ℝ) :
    (analyse_vibrations omega_0 x0 v0 xi_sous xi_suramorti t_max).x_critique =
      sampleList (fun i => x_critique_at omega_0 x0 v0 (tsample t_max i)) := rfl

lemma analyse_vibrations_x_suramorti (omega_0 x0 v0 xi_sous xi_suramorti t_max : ℝ) :
    (analyse_vibrations omega_0 x0 v0 xi_sous xi_suramorti t_max).x_suramorti =
      sampleList (fun i => x_suramorti_at omega_0 x0 v0 xi_suramorti (tsample t_max i)) := rfl

lemma analyse_vibrations_env_pos (omega_0 x0 v0 xi_sous xi_suramorti t_max : ℝ) :
    (analyse_vibrations omega_0 x0 v0 xi_sous xi_suramorti t_max).enveloppe_sous_pos =
      sampleList (fun i => enveloppe_sous_pos_at omega_0 x0 v0 xi_sous (tsample t_max i)) := rfl

lemma analyse_vibrations_env_neg (omega_0 x0 v0 xi_sous xi_suramorti t_max : ℝ) :
    (analyse_vibrations omega_0 x0 v0 xi_sous xi_suramorti t_max).enveloppe_sous_neg =
      sampleList (fun i => enveloppe_sous_neg_at omega_0 x0 v0 xi_sous (tsample t_max i)) := rfl

lemma analyse_vibrations_amplitude (omega_0 x0 v0 xi_sous xi_suramorti t_max : ℝ) :
    (analyse_vibrations omega_0 x0 v0 xi_sous xi_suramorti t_max).amplitude_max =
      max (max (max
        (absMax (sampleList (fun i => x_sans_at omega_0 x0 v0 (tsample t_max i))))
        (absMax (sampleList (fun i => x_sous_at omega_0 x0 v0 xi_sous (tsample t_max i)))))
        (absMax (sampleList (fun i => x_critique_at omega_0 x0 v0 (tsample t_max i)))))
        (absMax (sampleList (fun i => x_suramorti_at omega_0 x0 v0 xi_suramorti (tsample t_max i)))) := rfl

lemma numSamples_pos : 0 < numSamples := by norm_num [numSamples]

/-- Sample 0 of each displacement sequence is the formula's value at t = 0. -/
lemma x_sans_getD_zero (omega_0 x0 v0 xi_sous xi_suramorti t_max : ℝ) :
    (analyse_vibrations omega_0 x0 v0 xi_sous xi_suramorti t_max).x_sans.getD 0 0 = x0 := by
  rw [analyse_vibrations_x_sans, sampleList_getD _ 0 numSamples_pos]
  rw [tsample_zero, x_sans_at_zero]

lemma x_sous_getD_zero (omega_0 x0 v0 xi_sous xi_suramorti t_max : ℝ) :
    (analyse_vibrations omega_0 x0 v0 xi_sous xi_suramorti t_max).x_sous.getD 0 0 = x0 := by
  rw [analyse_vibrations_x_sous, sampleList_getD _ 0 numSamples_pos]
  rw [tsample_zero, x_sous_at_zero]

lemma x_critique_getD_zero (omega_0 x0 v0 xi_sous xi_suramorti t_max : ℝ) :
    (analyse_vibrations omega_0 x0 v0 xi_sous xi_suramorti t_max).x_critique.getD 0 0 = x0 := by
  rw [analyse_vibrations_x_critique, sampleList_getD _ 0 numSamples_pos]
  rw [tsample_zero, x_critique_at_zero]

lemma x_suramorti_getD_zero (omega_0 x0 v0 xi_sous xi_suramorti t_max : ℝ) :
    (analyse_vibrations omega_0 x0 v0 xi_sous xi_suramorti t_max).x_suramorti.getD 0 0 = x0 := by
  rw [analyse_vibrations_x_suramorti, sampleList_getD _ 0 numSamples_pos]
  rw [tsample_zero, x_suramorti_at_zero]

/-! ### Claim theorems -/

/-- C1 counterexample: the evaluator does not reject invalid input.  At
ξ_u = 1 (outside the open interval (0,1)) the parameters are invalid,
yet `analyse_vibrations` still returns a full 2000-sample underdamped
sequence, and its underdamped divisor ω_d equals 0, so the Python code
divides by zero and produces NaN samples instead of a diagnostic. -/
theorem invalid_input_not_rejected :
    ¬ ValidParams 2 1 (3/2) 8 ∧
    (analyse_vibrations 2 1 (1/2) 1 (3/2) 8).x_sous.length = 2000 ∧
    omega_d_sous 2 1 = 0 := by
  refine ⟨fun h => absurd h.2.2.1 (lt_irrefl 1), ?_, ?_⟩
  · rw [analyse_vibrations_x_sous, sampleList_length_2000]
  · unfold omega_d_sous
    norm_num

/-- C1 (amended): `analyse_vibrations` performs no parameter validation
and has no rejection or diagnostic path: even on invalid input it
computes and returns full 2000-sample sequences, and at ξ_u = 1 the
underdamped divisor ω_d is zero (a division by zero in the Python
code); invalid ratios are excluded only upstream by the UI slider
bounds. -/
theorem analyse_vibrations_no_rejection (omega_0 x0 v0 xi_sous xi_suramorti t_max : ℝ)
    (h : ¬ ValidParams omega_0 xi_sous xi_suramorti t_max) :
    (analyse_vibrations omega_0 x0 v0 xi_sous xi_suramorti t_max).t.length = 2000 ∧
    (analyse_vibrations omega_0 x0 v0 xi_sous xi_suramorti t_max).x_sans.length = 2000 ∧
    (analyse_vibrations omega_0 x0 v0 xi_sous xi_suramorti t_max).x_sous.length = 2000 ∧
    (analyse_vibrations omega_0 x0 v0 xi_sous xi_suramorti t_max).x_critique.length = 2000 ∧
    (analyse_vibrations omega_0 x0 v0 xi_sous xi_suramorti t_max).x_suramorti.length = 2000 ∧
    (analyse_vibrations omega_0 x0 v0 xi_sous xi_suramorti t_max).enveloppe_sous_pos.length = 2000 ∧
    (analyse_vibrations omega_0 x0 v0 xi_sous xi_suramorti t_max).enveloppe_sous_neg.length = 2000 ∧
    (xi_sous = 1 → omega_d_sous omega_0 xi_sous = 0) := by
  refine ⟨?_, ?_, ?_, ?_, ?_, ?_, ?_, ?_⟩
  · rw [analyse_vibrations_t, sampleList_length_2000]
  · rw [analyse_vibrations_x_sans, sampleList_length_2000]
  · rw [analyse_vibrations_x_sous, sampleList_length_2000]
  · rw [analyse_vibrations_x_critique, sampleList_length_2000]
  · rw [analyse_vibrations_x_suramorti, sampleList_length_2000]
  · rw [analyse_vibrations_env_pos, sampleList_length_2000]
  · rw [analyse_vibrations_env_neg, sampleList_length_2000]
  · rintro rfl
    unfold omega_d_sous
    norm_num

/-- Witness for C1's amended theorem at the invalid input ξ_u = 1. -/
theorem analyse_vibrations_no_rejection_witness :
    (analyse_vibrations 2 1 (1/2) 1 (3/2) 8).t.length = 2000 ∧
    (analyse_vibrations 2 1 (1/2) 1 (3/2) 8).x_sans.length = 2000 ∧
    (analyse_vibrations 2 1 (1/2) 1 (3/2) 8).x_sous.length = 2000 ∧
    (analyse_vibrations 2 1 (1/2) 1 (3/2) 8).x_critique.length = 2000 ∧
    (analyse_vibrations 2 1 (1/2) 1 (3/2) 8).x_suramorti.length = 2000 ∧
    (analyse_vibrations 2 1 (1/2) 1 (3/2) 8).enveloppe_sous_pos.length = 2000 ∧
    (analyse_vibrations 2 1 (1/2) 1 (3/2) 8).enveloppe_sous_neg.length = 2000 ∧
    ((1 : ℝ) = 1 → omega_d_sous 2 1 = 0) :=
  analyse_vibrations_no_rejection 2 1 (1/2) 1 (3/2) 8
    (fun h => absurd h.2.2.1 (lt_irrefl 1))

/-- C3: for every valid parameter set, sample 0 (the sample at t = 0)
of each of the four displacement sequences equals the initial
displacement x0. -/
theorem initial_samples_eq_x0 (omega_0 x0 v0 xi_sous xi_suramorti t_max : ℝ)
    (h : ValidParams omega_0 xi_sous xi_suramorti t_max) :
    (analyse_vibrations omega_0 x0 v0 xi_sous xi_suramorti t_max).x_sans.getD 0 0 = x0 ∧
    (analyse_vibrations omega_0 x0 v0 xi_sous xi_suramorti t_max).x_sous.getD 0 0 = x0 ∧
    (analyse_vibrations omega_0 x0 v0 xi_sous xi_suramorti t_max).x_critique.getD 0 0 = x0 ∧
    (analyse_vibrations omega_0 x0 v0 xi_sous xi_suramorti t_max).x_suramorti.getD 0 0 = x0 :=
  ⟨x_sans_getD_zero omega_0 x0 v0 xi_sous xi_suramorti t_max,
   x_sous_getD_zero omega_0 x0 v0 xi_sous xi_suramorti t_max,
   x_critique_getD_zero omega_0 x0 v0 xi_sous xi_suramorti t_max,
   x_suramorti_getD_zero omega_0 x0 v0 xi_sous xi_suramorti t_max⟩

/-- Witness for C3 at the valid parameter set
ω₀ = 2, x0 = 1, v0 = 1/2, ξ_u = 1/5, ξ_o = 3/2, t_max = 8. -/
theorem initial_samples_eq_x0_witness :
    (analyse_vibrations 2 1 (1/2) (1/5) (3/2) 8).x_sans.getD 0 0 = 1 ∧
    (analyse_vibrations 2 1 (1/2) (1/5) (3/2) 8).x_sous.getD 0 0 = 1 ∧
    (analyse_vibrations 2 1 (1/2) (1/5) (3/2) 8).x_critique.getD 0 0 = 1 ∧
    (analyse_vibrations 2 1 (1/2) (1/5) (3/2) 8).x_suramorti.getD 0 0 = 1 :=
  initial_samples_eq_x0 2 1 (1/2) (1/5) (3/2) 8 (by norm_num [ValidParams])

/-- C6: the evaluator is deterministic — equal parameters give equal
trajectories.  (Purity and statelessness are expressed by the shallow
embedding itself: `analyse_vibrations` reads nothing but its six real
arguments and produces its whole result as a value.) -/
theorem analyse_vibrations_deterministic
    (o₁ o₂ x₁ x₂ v₁ v₂ s₁ s₂ u₁ u₂ m₁ m₂ : ℝ)
    (ho : o₁ = o₂) (hx : x₁ = x₂) (hv : v₁ = v₂)
    (hs : s₁ = s₂) (hu : u₁ = u₂) (hm : m₁ = m₂) :
    analyse_vibrations o₁ x₁ v₁ s₁ u₁ m₁ = analyse_vibrations o₂ x₂ v₂ s₂ u₂ m₂ := by
  rw [ho, hx, hv, hs, hu, hm]

/-- Witness for C6 at a concrete parameter set. -/
theorem analyse_vibrations_deterministic_witness :
    analyse_vibrations 2 1 (1/2) (1/5) (3/2) 8 = analyse_vibrations 2 1 (1/2) (1/5) (3/2) 8 :=
  analyse_vibrations_deterministic 2 2 1 1 (1/2) (1/2) (1/5) (1/5) (3/2) (3/2) 8 8
    rfl rfl rfl rfl rfl rfl

/-- C8: the zoomed chart variant sets the horizontal axis to
[0, min(3, t_max)] while the full-view variant leaves it unrestricted,
for every t_max. -/
theorem create_plot_xlim_spec (amplitude_max t_max : ℝ) :
    (create_plot amplitude_max t_max true).xlim = some (0, min 3 t_max) ∧
    (create_plot amplitude_max t_max false).xlim = none :=
  ⟨rfl, rfl⟩

/-- C9: the sample count is hard-coded: for every parameter set, with
no validity assumption at all, every sequence returned by
`analyse_vibrations` has length exactly 2000. -/
theorem trajectory_lengths_hardcoded (omega_0 x0 v0 xi_sous xi_suramorti t_max : ℝ) :
    (analyse_vibrations omega_0 x0 v0 xi_sous xi_suramorti t_max).t.length = 2000 ∧
    (analyse_vibrations omega_0 x0 v0 xi_sous xi_suramorti t_max).x_sans.length = 2000 ∧
    (analyse_vibrations omega_0 x0 v0 xi_sous xi_suramorti t_max).x_sous.length = 2000 ∧
    (analyse_vibrations omega_0 x0 v0 xi_sous xi_suramorti t_max).x_critique.length = 2000 ∧
    (analyse_vibrations omega_0 x0 v0 xi_sous xi_suramorti t_max).x_suramorti.length = 2000 ∧
    (analyse_vibrations omega_0 x0 v0 xi_sous xi_suramorti t_max).enveloppe_sous_pos.length = 2000 ∧
    (analyse_vibrations omega_0 x0 v0 xi_sous xi_suramorti t_max).enveloppe_sous_neg.length = 2000 := by
  refine ⟨?_, ?_, ?_, ?_, ?_, ?_, ?_⟩
  · rw [analyse_vibrations_t, sampleList_length_2000]
  · rw [analyse_vibrations_x_sans, sampleList_length_2000]
  · rw [analyse_vibrations_x_sous, sampleList_length_2000]
  · rw [analyse_vibrations_x_critique, sampleList_length_2000]
  · rw [analyse_vibrations_x_suramorti, sampleList_length_2000]
  · rw [analyse_vibrations_env_pos, sampleList_length_2000]
  · rw [analyse_vibrations_env_neg, sampleList_length_2000]

/-- C10: the negative envelope is the exact pointwise negation of the
positive envelope, and the positive envelope is everywhere
nonnegative. -/
theorem enveloppe_neg_eq_neg_pos (omega_0 x0 v0 xi_sous xi_suramorti t_max : ℝ)
    (h : ValidParams omega_0 xi_sous xi_suramorti t_max) (i : ℕ) (hi : i < numSamples) :
    (analyse_vibrations omega_0 x0 v0 xi_sous xi_suramorti t_max).enveloppe_sous_neg.getD i 0 =
      -((analyse_vibrations omega_0 x0 v0 xi_sous xi_suramorti t_max).enveloppe_sous_pos.getD i 0) ∧
    0 ≤ (analyse_vibrations omega_0 x0 v0 xi_sous xi_suramorti t_max).enveloppe_sous_pos.getD i 0 := by
  rw [analyse_vibrations_env_neg, analyse_vibrations_env_pos,
    sampleList_getD _ i hi, sampleList_getD _ i hi]
  exact ⟨rfl, enveloppe_sous_pos_at_nonneg omega_0 x0 v0 xi_sous (tsample t_max i)⟩

/-- C2: the scalar peak amplitude equals the maximum absolute value
over all elements of the four displacement sequences: it is the
`absMax` of their concatenation, it bounds every |element|, and it is
attained by some element. -/
theorem amplitude_max_global (omega_0 x0 v0 xi_sous xi_suramorti t_max : ℝ)
    (h : ValidParams omega_0 xi_sous xi_suramorti t_max) :
    (analyse_vibrations omega_0 x0 v0 xi_sous xi_suramorti t_max).amplitude_max =
      absMax (allDisplacements (analyse_vibrations omega_0 x0 v0 xi_sous xi_suramorti t_max)) ∧
    (∀ y ∈ allDisplacements (analyse_vibrations omega_0 x0 v0 xi_sous xi_suramorti t_max),
      |y| ≤ (analyse_vibrations omega_0 x0 v0 xi_sous xi_suramorti t_max).amplitude_max) ∧
    (∃ y ∈ allDisplacements (analyse_vibrations omega_0 x0 v0 xi_sous xi_suramorti t_max),
      |y| = (analyse_vibrations omega_0 x0 v0 xi_sous xi_suramorti t_max).amplitude_max) := by
  have key : absMax (allDisplacements (analyse_vibrations omega_0 x0 v0 xi_sous xi_suramorti t_max)) =
      (analyse_vibrations omega_0 x0 v0 xi_sous xi_suramorti t_max).amplitude_max := by
    simp only [allDisplacements, analyse_vibrations_x_sans, analyse_vibrations_x_sous,
      analyse_vibrations_x_critique, analyse_vibrations_x_suramorti,
      analyse_vibrations_amplitude]
    rw [absMax_append, absMax_append, absMax_append]
  have hne : allDisplacements (analyse_vibrations omega_0 x0 v0 xi_sous xi_suramorti t_max) ≠ [] := by
    have hlen : 0 < (allDisplacements (analyse_vibrations omega_0 x0 v0 xi_sous xi_suramorti t_max)).length := by
      simp [allDisplacements, analyse_vibrations_x_sans, analyse_vibrations_x_sous,
        analyse_vibrations_x_critique, analyse_vibrations_x_suramorti,
        sampleList_length, numSamples]
    exact List.length_pos.mp hlen
  refine ⟨key.symm, fun y hy => key ▸ le_absMax _ y hy, ?_⟩
  obtain ⟨y, hy, hey⟩ := absMax_attained _ hne
  exact ⟨y, hy, key ▸ hey⟩

/-- Witness for C2 at a valid parameter set. -/
theorem amplitude_max_global_witness :
    (analyse_vibrations 2 1 (1/2) (1/5) (3/2) 8).amplitude_max =
      absMax (allDisplacements (analyse_vibrations 2 1 (1/2) (1/5) (3/2) 8)) ∧
    (∀ y ∈ allDisplacements (analyse_vibrations 2 1 (1/2) (1/5) (3/2) 8),
      |y| ≤ (analyse_vibrations 2 1 (1/2) (1/5) (3/2) 8).amplitude_max) ∧
    (∃ y ∈ allDisplacements (analyse_vibrations 2 1 (1/2) (1/5) (3/2) 8),
      |y| = (analyse_vibrations 2 1 (1/2) (1/5) (3/2) 8).amplitude_max) :=
  amplitude_max_global 2 1 (1/2) (1/5) (3/2) 8 (by norm_num [ValidParams])

/-- C4: at every sample index the underdamped displacement lies between
the negative and the positive envelope. -/
theorem x_sous_between_envelopes (omega_0 x0 v0 xi_sous xi_suramorti t_max : ℝ)
    (h : ValidParams omega_0 xi_sous xi_suramorti t_max) (i : ℕ) (hi : i < numSamples) :
    (analyse_vibrations omega_0 x0 v0 xi_sous xi_suramorti t_max).enveloppe_sous_neg.getD i 0 ≤
      (analyse_vibrations omega_0 x0 v0 xi_sous xi_suramorti t_max).x_sous.getD i 0 ∧
    (analyse_vibrations omega_0 x0 v0 xi_sous xi_suramorti t_max).x_sous.getD i 0 ≤
      (analyse_vibrations omega_0 x0 v0 xi_sous xi_suramorti t_max).enveloppe_sous_pos.getD i 0 := by
  rw [analyse_vibrations_env_neg, analyse_vibrations_env_pos, analyse_vibrations_x_sous,
    sampleList_getD _ i hi, sampleList_getD _ i hi, sampleList_getD _ i hi]
  have hb := abs_le.mp (abs_x_sous_le_enveloppe omega_0 x0 v0 xi_sous (tsample t_max i))
  exact ⟨hb.1, hb.2⟩

/-- Witness for C4 at a valid parameter set and sample index 0. -/
theorem x_sous_between_envelopes_witness :
    (analyse_vibrations 2 1 (1/2) (1/5) (3/2) 8).enveloppe_sous_neg.getD 0 0 ≤
      (analyse_vibrations 2 1 (1/2) (1/5) (3/2) 8).x_sous.getD 0 0 ∧
    (analyse_vibrations 2 1 (1/2) (1/5) (3/2) 8).x_sous.getD 0 0 ≤
      (analyse_vibrations 2 1 (1/2) (1/5) (3/2) 8).enveloppe_sous_pos.getD 0 0 :=
  x_sous_between_envelopes 2 1 (1/2) (1/5) (3/2) 8 (by norm_num [ValidParams]) 0
    numSamples_pos

/-- C5: all seven sequences share length N = `numSamples` with the time
grid, and the time grid is N evenly spaced samples spanning
[0, t_max]: sample 0 is 0, sample N−1 is t_max, consecutive samples
differ by the constant step t_max/(N−1), and every sample lies in
[0, t_max]. -/
theorem trajectory_shape_and_grid (omega_0 x0 v0 xi_sous xi_suramorti t_max : ℝ)
    (h : ValidParams omega_0 xi_sous xi_suramorti t_max) :
    ((analyse_vibrations omega_0 x0 v0 xi_sous xi_suramorti t_max).t.length = numSamples ∧
     (analyse_vibrations omega_0 x0 v0 xi_sous xi_suramorti t_max).x_sans.length =
       (analyse_vibrations omega_0 x0 v0 xi_sous xi_suramorti t_max).t.length ∧
     (analyse_vibrations omega_0 x0 v0 xi_sous xi_suramorti t_max).x_sous.length =
       (analyse_vibrations omega_0 x0 v0 xi_sous xi_suramorti t_max).t.length ∧
     (analyse_vibrations omega_0 x0 v0 xi_sous xi_suramorti t_max).x_critique.length =
       (analyse_vibrations omega_0 x0 v0 xi_sous xi_suramorti t_max).t.length ∧
     (analyse_vibrations omega_0 x0 v0 xi_sous xi_suramorti t_max).x_suramorti.length =
       (analyse_vibrations omega_0 x0 v0 xi_sous xi_suramorti t_max).t.length ∧
     (analyse_vibrations omega_0 x0 v0 xi_sous xi_suramorti t_max).enveloppe_sous_pos.length =
       (analyse_vibrations omega_0 x0 v0 xi_sous xi_suramorti t_max).t.length ∧
     (analyse_vibrations omega_0 x0 v0 xi_sous xi_suramorti t_max).enveloppe_sous_neg.length =
       (analyse_vibrations omega_0 x0 v0 xi_sous xi_suramorti t_max).t.length) ∧
    ((analyse_vibrations omega_0 x0 v0 xi_sous xi_suramorti t_max).t.getD 0 0 = 0 ∧
     (analyse_vibrations omega_0 x0 v0 xi_sous xi_suramorti t_max).t.getD (numSamples - 1) 0 = t_max ∧
     (∀ i, i + 1 < numSamples →
       (analyse_vibrations omega_0 x0 v0 xi_sous xi_suramorti t_max).t.getD (i + 1) 0 -
         (analyse_vibrations omega_0 x0 v0 xi_sous xi_suramorti t_max).t.getD i 0 =
           t_max / ((numSamples : ℝ) - 1)) ∧
     (∀ i, i < numSamples →
       0 ≤ (analyse_vibrations omega_0 x0 v0 xi_sous xi_suramorti t_max).t.getD i 0 ∧
       (analyse_vibrations omega_0 x0 v0 xi_sous xi_suramorti t_max).t.getD i 0 ≤ t_max)) := by
  constructor
  · refine ⟨sampleList_length _, ?_, ?_, ?_, ?_, ?_, ?_⟩
    · rw [analyse_vibrations_x_sans, analyse_vibrations_t, sampleList_length, sampleList_length]
    · rw [analyse_vibrations_x_sous, analyse_vibrations_t, sampleList_length, sampleList_length]
    · rw [analyse_vibrations_x_critique, analyse_vibrations_t, sampleList_length, sampleList_length]
    · rw [analyse_vibrations_x_suramorti, analyse_vibrations_t, sampleList_length, sampleList_length]
    · rw [analyse_vibrations_env_pos, analyse_vibrations_t, sampleList_length, sampleList_length]
    · rw [analyse_vibrations_env_neg, analyse_vibrations_t, sampleList_length, sampleList_length]
  · refine ⟨?_, ?_, ?_, ?_⟩
    · rw [analyse_vibrations_t, sampleList_getD _ 0 numSamples_pos, tsample_zero]
    · rw [analyse_vibrations_t, sampleList_getD _ (numSamples - 1) (by norm_num [numSamples])]
      unfold tsample numSamples
      norm_num
    · intro i hi
      rw [analyse_vibrations_t, sampleList_getD _ (i + 1) hi,
        sampleList_getD _ i (Nat.lt_of_succ_lt hi)]
      unfold tsample
      have hc : ((numSamples : ℝ) - 1) ≠ 0 := by norm_num [numSamples]
      field_simp
      ring
    · intro i hi
      rw [analyse_vibrations_t, sampleList_getD _ i hi]
      unfold tsample
      have htm : 0 < t_max := h.2.2.2.2
      have hc : (0 : ℝ) < (numSamples : ℝ) - 1 := by norm_num [numSamples]
      constructor
      · exact div_nonneg (mul_nonneg htm.le (Nat.cast_nonneg i)) hc.le
      · rw [div_le_iff₀ hc]
        have hile : (i : ℝ) ≤ (numSamples : ℝ) - 1 := by
          have hnat : i ≤ numSamples - 1 := Nat.le_sub_one_of_lt hi
          have hcast : (i : ℝ) ≤ ((numSamples - 1 : ℕ) : ℝ) := by exact_mod_cast hnat
          calc (i : ℝ) ≤ ((numSamples - 1 : ℕ) : ℝ) := hcast
          _ = (numSamples : ℝ) - 1 := by norm_num [numSamples]
        nlinarith

/-- Witness for C5 at a valid parameter set. -/
theorem trajectory_shape_and_grid_witness :
    (((analyse_vibrations 2 1 (1/2) (1/5) (3/2) 8).t.length = numSamples ∧
     (analyse_vibrations 2 1 (1/2) (1/5) (3/2) 8).x_sans.length =
       (analyse_vibrations 2 1 (1/2) (1/5) (3/2) 8).t.length ∧
     (analyse_vibrations 2 1 (1/2) (1/5) (3/2) 8).x_sous.length =
       (analyse_vibrations 2 1 (1/2) (1/5) (3/2) 8).t.length ∧
     (analyse_vibrations 2 1 (1/2) (1/5) (3/2) 8).x_critique.length =
       (analyse_vibrations 2 1 (1/2) (1/5) (3/2) 8).t.length ∧
     (analyse_vibrations 2 1 (1/2) (1/5) (3/2) 8).x_suramorti.length =
       (analyse_vibrations 2 1 (1/2) (1/5) (3/2) 8).t.length ∧
     (analyse_vibrations 2 1 (1/2) (1/5) (3/2) 8).enveloppe_sous_pos.length =
       (analyse_vibrations 2 1 (1/2) (1/5) (3/2) 8).t.length ∧
     (analyse_vibrations 2 1 (1/2) (1/5) (3/2) 8).enveloppe_sous_neg.length =
       (analyse_vibrations 2 1 (1/2) (1/5) (3/2) 8).t.length) ∧
    ((analyse_vibrations 2 1 (1/2) (1/5) (3/2) 8).t.getD 0 0 = 0 ∧
     (analyse_vibrations 2 1 (1/2) (1/5) (3/2) 8).t.getD (numSamples - 1) 0 = 8 ∧
     (∀ i, i + 1 < numSamples →
       (analyse_vibrations 2 1 (1/2) (1/5) (3/2) 8).t.getD (i + 1) 0 -
         (analyse_vibrations 2 1 (1/2) (1/5) (3/2) 8).t.getD i 0 =
           8 / ((numSamples : ℝ) - 1)) ∧
     (∀ i, i < numSamples →
       0 ≤ (analyse_vibrations 2 1 (1/2) (1/5) (3/2) 8).t.getD i 0 ∧
       (analyse_vibrations 2 1 (1/2) (1/5) (3/2) 8).t.getD i 0 ≤ 8))) :=
  trajectory_shape_and_grid 2 1 (1/2) (1/5) (3/2) 8 (by norm_num [ValidParams])

/-- C7: at ω₀ = 2, x0 = 1, v0 = 0.5, ξ_u = 0.2, ξ_o = 1.5, t_max = 8
the sample at t = 0 of all four displacement sequences equals 1, the
underdamped damped frequency is 2·√(1 − 0.04) ≈ 1.9596 and the
overdamped one is 2·√1.25 ≈ 2.2361 (both approximations within
0.001). -/
theorem example_parameter_values :
    (analyse_vibrations 2 1 0.5 0.2 1.5 8).x_sans.getD 0 0 = 1 ∧
    (analyse_vibrations 2 1 0.5 0.2 1.5 8).x_sous.getD 0 0 = 1 ∧
    (analyse_vibrations 2 1 0.5 0.2 1.5 8).x_critique.getD 0 0 = 1 ∧
    (analyse_vibrations 2 1 0.5 0.2 1.5 8).x_suramorti.getD 0 0 = 1 ∧
    omega_d_sous 2 0.2 = 2 * Real.sqrt (1 - 0.04) ∧
    |omega_d_sous 2 0.2 - 1.9596| < 0.001 ∧
    omega_d_sur 2 1.5 = 2 * Real.sqrt 1.25 ∧
    |omega_d_sur 2 1.5 - 2.2361| < 0.001 := by
  have h1 : omega_d_sous 2 0.2 = 2 * Real.sqrt (1 - 0.04) := by
    unfold omega_d_sous
    norm_num
  have h2 : omega_d_sur 2 1.5 = 2 * Real.sqrt 1.25 := by
    unfold omega_d_sur
    norm_num
  have hs1a : Real.sqrt (1 - 0.04) < 0.97985 := by
    rw [Real.sqrt_lt' (by norm_num)]
    norm_num
  have hs1b : (0.9793 : ℝ) < Real.sqrt (1 - 0.04) := by
    rw [Real.lt_sqrt (by norm_num)]
    norm_num
  have hs2a : Real.sqrt 1.25 < 1.11855 := by
    rw [Real.sqrt_lt' (by norm_num)]
    norm_num
  have hs2b : (1.11755 : ℝ) < Real.sqrt 1.25 := by
    rw [Real.lt_sqrt (by norm_num)]
    norm_num
  refine ⟨x_sans_getD_zero 2 1 0.5 0.2 1.5 8, x_sous_getD_zero 2 1 0.5 0.2 1.5 8,
    x_critique_getD_zero 2 1 0.5 0.2 1.5 8, x_suramorti_getD_zero 2 1 0.5 0.2 1.5 8,
    h1, ?_, h2, ?_⟩
  · rw [h1, abs_lt]
    constructor <;> linarith
  · rw [h2, abs_lt]
    constructor <;> linarith

/-- Witness for C10 at a valid parameter set and sample index 0. -/
theorem enveloppe_neg_eq_neg_pos_witness :
    (analyse_vibrations 2 1 (1/2) (1/5) (3/2) 8).enveloppe_sous_neg.getD 0 0 =
      -((analyse_vibrations 2 1 (1/2) (1/5) (3/2) 8).enveloppe_sous_pos.getD 0 0) ∧
    0 ≤ (analyse_vibrations 2 1 (1/2) (1/5) (3/2) 8).enveloppe_sous_pos.getD 0 0 :=
  enveloppe_neg_eq_neg_pos 2 1 (1/2) (1/5) (3/2) 8 (by norm_num [ValidParams]) 0
    numSamples_pos

end

end Vibrations
